import Mathlib

/-
Verification of the log-downloader pipeline in `ss13_tools/log_downloader/abstract.py`.

The Python code is shallowly embedded: `bytes` values become lists of characters,
the HTTP archive and the ISO timestamp parser become pure functions supplied in an
environment, exceptions become an error type threaded through `Except`, and the
`asyncio` coordinator becomes a deterministic fold.  Concurrency disappears soundly:
every fetch task is a pure function of its round and of the shared round list, the
coordinator awaits the tasks strictly in submission order, and the only shared
mutation (the in-place timestamp normalization that each task performs first) is
modelled as a parse phase applied to the whole round list, which matches the
event-loop schedule in which every task runs up to its first network suspension
before any response arrives.
-/

namespace SS13

/-- Python `bytes` values, modelled as lists of characters (one `Char` per byte). -/
abbrev Bytes := List Char

/-- Python `str.encode("utf-8")`, modelled as the code-point sequence of the string. -/
def strBytes (s : String) : Bytes := s.data

/-- Python `response.split(b"\r\n")`: greedy left-to-right split on the CRLF separator. -/
def splitCRLF : List Char → List (List Char)
  | [] => [[]]
  | [c] => [[c]]
  | c1 :: c2 :: rest =>
    if c1 = '\r' ∧ c2 = '\n' then
      [] :: splitCRLF rest
    else
      match splitCRLF (c2 :: rest) with
      | [] => [[c1]]
      | l :: ls => (c1 :: l) :: ls

/-- Python `b"\r\n".join(xs)`. -/
def joinCRLF : List Bytes → Bytes
  | [] => []
  | [b] => b
  | b :: bs => b ++ '\r' :: '\n' :: joinCRLF bs

/-- Modelled from the spec: the instant produced by parsing an ISO timestamp; only the
calendar fields that `get_log_links` reads are represented. -/
structure Date where
  year : Nat
  month : Nat
  day : Nat
deriving DecidableEq

/-- A round's `timestamp` field: either still the textual ISO form the round-list
collaborator supplies, or the instant that `fetch` replaces it with in place. -/
inductive Timestamp where
  | raw (s : String)
  | parsed (d : Date)
deriving DecidableEq

/-- Modelled from the spec: the `RoundData` descriptor (from `ss13_tools.scrubby`, not under
src); fields follow their use in `abstract.py`: server name, numeric round id, timestamp,
and the round-start-suicide flag. -/
structure RoundData where
  server : String
  roundID : Nat
  timestamp : Timestamp
  roundStartSuicide : Bool
deriving DecidableEq

/-- Result of one HTTP GET on a candidate link: a response with `rsp.ok` true and a body,
a response with `rsp.ok` false (e.g. HTTP 404), or a network-level failure, which in the
source raises out of `session.get`. -/
inductive HttpResp where
  | ok (body : Bytes)
  | bad
  | netFail
deriving DecidableEq

/-- The Python exceptions that can escape the embedded code paths. -/
inductive PyErr where
  | isoparseError
  | attributeError
  | networkError
  | unpackTypeError
  | noneIterError
deriving DecidableEq

/-- The ambient world of one run: the ISO parser (dateutil) and the HTTP archive,
as pure functions.  A `none` from `iso` models `isoparse` raising on that string. -/
structure Env where
  iso : String → Option Date
  http : String → HttpResp

/-- `isoparse(round_data.timestamp)`: a textual timestamp is parsed with `iso`; an
already-normalized timestamp is a `datetime`, on which `isoparse` raises a TypeError,
modelled as `none`. -/
def isoparseTs (iso : String → Option Date) : Timestamp → Option Date
  | .raw s => iso s
  | .parsed _ => none

/-- The in-place effect of `round_data.timestamp = isoparse(round_data.timestamp)` on one
round: a parseable textual timestamp is replaced by its instant; if `isoparse` raises, the
assignment never executes and the field keeps its old value. -/
def parseRound (iso : String → Option Date) (r : RoundData) : RoundData :=
  match r.timestamp with
  | .raw s =>
    match iso s with
    | some d => { r with timestamp := .parsed d }
    | none => r
  | .parsed _ => r

/-- Modelled from the spec: the plain archive URL template `GAME_TXT_URL`
(`log_downloader/constants.py`, not under src).  Only the field slots matter
to the claims, not the concrete host text. -/
def GAME_TXT_URL (server year month day round_id : String) : String :=
  "txt/" ++ server ++ "/" ++ year ++ "/" ++ month ++ "/" ++ day ++ "/" ++ round_id

/-- Modelled from the spec: the authenticated (raw-logs) URL template
`GAME_TXT_ADMIN_URL` (`log_downloader/constants.py`, not under src). -/
def GAME_TXT_ADMIN_URL (server year month day round_id : String) : String :=
  "admin-txt/" ++ server ++ "/" ++ year ++ "/" ++ month ++ "/" ++ day ++ "/" ++ round_id

/-- Python format spec `f"{n:02d}"`, as used for the month and day URL fields. -/
def pad2 (n : Nat) : String :=
  if n < 10 then "0" ++ toString n else toString n

/-- Python `str.lower()`. -/
def pyLower (s : String) : String := String.mk (s.data.map Char.toLower)

/-- Whether `p` is an initial segment of `l`. -/
def leadsWith : List Char → List Char → Bool
  | [], _ => true
  | _ :: _, [] => false
  | p :: ps, c :: cs => p = c && leadsWith ps cs

/-- Fuel-driven worker for `pyReplace`; the fuel is the length of the subject list. -/
def replaceFuel (pat rep : List Char) : Nat → List Char → List Char
  | 0, l => l
  | _ + 1, [] => []
  | fuel + 1, c :: cs =>
    if leadsWith pat (c :: cs) then rep ++ replaceFuel pat rep fuel ((c :: cs).drop pat.length)
    else c :: replaceFuel pat rep fuel cs

/-- Python `str.replace(pat, rep)`: leftmost-first, non-overlapping (for non-empty `pat`). -/
def pyReplace (s pat rep : String) : String :=
  String.mk (replaceFuel pat.data rep.data s.data.length s.data)

/-- One step of the `get_log_links` generator: the URL built for round `rnd`, with the
template chosen by the truthiness of `tgforums_cookie` and the server name lower-cased
and the legacy name bagil renamed to basil.  Reading `rnd.timestamp.year` while the
timestamp is still textual raises an AttributeError. -/
def roundUrl (tgforums_cookie : String) (rnd : RoundData) : Except PyErr String :=
  match rnd.timestamp with
  | .raw _ => .error .attributeError
  | .parsed d =>
    let url := if tgforums_cookie = "" then GAME_TXT_URL else GAME_TXT_ADMIN_URL
    .ok (url (pyReplace (pyLower rnd.server) "bagil" "basil")
          (toString d.year) (pad2 d.month) (pad2 d.day) (toString rnd.roundID))

/-- `get_log_links`: yields one candidate URL per round of `self.rounds`, in list order. -/
def get_log_links (tgforums_cookie : String) (rounds : List RoundData) :
    List (Except PyErr String) :=
  rounds.map (roundUrl tgforums_cookie)

/-- The candidate loop of `fetch`: consumes the `get_log_links` generator lazily over
`selfRounds` (note: the whole round list, not one round's own candidates); a non-ok
response is skipped, the first ok response body is joined and returned, a network
failure raises, and an exhausted generator falls off the end of the function body,
which in Python returns the bare value `None`. -/
def fetchLoop (env : Env) (tgforums_cookie : String) : List RoundData → Except PyErr (Option Bytes)
  | [] => .ok none
  | rnd :: rest =>
    match roundUrl tgforums_cookie rnd with
    | .error e => .error e
    | .ok link =>
      match env.http link with
      | .netFail => .error .networkError
      | .bad => fetchLoop env tgforums_cookie rest
      | .ok body => .ok (some (joinCRLF [body]))

/-- The per-round task body `fetch(round_data)`: first normalizes the round's timestamp in
place (raising if it does not parse), then runs the candidate loop over `selfRounds`,
the post-normalization `self.rounds` list. -/
def fetch (env : Env) (tgforums_cookie : String) (selfRounds : List RoundData)
    (round_data : RoundData) : Except PyErr (Option (RoundData × Bytes)) :=
  match isoparseTs env.iso round_data.timestamp with
  | none => .error .isoparseError
  | some d =>
    let rd := { round_data with timestamp := .parsed d }
    match fetchLoop env tgforums_cookie selfRounds with
    | .error e => .error e
    | .ok none => .ok none
    | .ok (some body) => .ok (some (rd, body))

/-- What the coordinator does with one awaited task value: unpacking the bare `None` of a
fetch whose candidates were exhausted raises a TypeError; an empty body is falsy and is
yielded as the absent marker; otherwise the body is split on CRLF and yielded. -/
def yieldStep : Option (RoundData × Bytes) → Except PyErr (RoundData × Option (List Bytes))
  | none => .error .unpackTypeError
  | some (rd, response) =>
    if response = [] then .ok (rd, none)
    else .ok (rd, some (splitCRLF response))

/-- One yielded element of the `get_logs_async` generator. -/
abbrev Outcome := RoundData × Option (List Bytes)

/-- The await-and-yield loop of `get_logs_async`: tasks are awaited strictly in submission
order; the first task whose await raises aborts the generator, discarding the remaining
tasks' results.  `selfRounds` is the shared round list the candidate generators read. -/
def getLogsGo (env : Env) (tgforums_cookie : String) (selfRounds : List RoundData) :
    List RoundData → List Outcome × Option PyErr
  | [] => ([], none)
  | r :: rs =>
    match fetch env tgforums_cookie selfRounds r with
    | .error e => ([], some e)
    | .ok v =>
      match yieldStep v with
      | .error e => ([], some e)
      | .ok out =>
        let p := getLogsGo env tgforums_cookie selfRounds rs
        (out :: p.1, p.2)

/-- `get_logs_async(rounds)`: spawns one `fetch` task per round eagerly, awaits them in
submission order, and yields outcomes.  The function is modelled at its one call
configuration, in which the argument aliases `self.rounds`; every task's first slice
runs its timestamp normalization before any response arrives, so the candidate
generators read the round list with every parseable timestamp already normalized.
The result is the list of yielded outcomes together with the exception, if any, that
aborted the generator after that prefix. -/
def get_logs_async (env : Env) (tgforums_cookie : String) (rounds : List RoundData) :
    List Outcome × Option PyErr :=
  getLogsGo env tgforums_cookie (rounds.map (parseRound env.iso)) rounds

/-- `format_line_bytes`: tags a raw line as
server name, space, decimal round id, the literal bar separator, the line, a newline. -/
def format_line_bytes (line : Bytes) (round_data : RoundData) : Bytes :=
  strBytes round_data.server ++ strBytes " " ++ strBytes (toString round_data.roundID)
    ++ strBytes " | " ++ line ++ strBytes "\n"

/-- Python truthiness of the `logs` value in `if not logs`: `None` and the empty list are
both falsy. -/
def logsFalsy : Option (List Bytes) → Bool
  | none => true
  | some l => l.isEmpty

/-- The warning printed for a round with no retrievable log (colour codes omitted). -/
def warnMsg (r : RoundData) : String :=
  "WARNING: Could not find round " ++ toString r.roundID ++ " on " ++ r.server

/-- The notice printed for a round flagged as a round-start suicide (colour codes omitted). -/
def noticeMsg (r : RoundData) : String :=
  "WARNING: round start suicide in round " ++ toString r.roundID ++ " on " ++ r.server

/-- Observable effects of the driver loop body on one outcome: bytes appended to the
output file, warnings printed, and notices printed. -/
structure DriveOut where
  written : Bytes
  warnings : List String
  notices : List String
deriving DecidableEq

/-- The body of the `async for` loop in `process_and_write`, for one outcome: a falsy
`logs` value prints a warning and skips the round; a set suicide flag prints a notice but
processing continues; the surviving filtered lines are each formatted and written. -/
def driveStep (filter_lines : List Bytes → List Bytes) (o : Outcome) : DriveOut :=
  if logsFalsy o.2 then
    { written := [], warnings := [warnMsg o.1], notices := [] }
  else
    let written := ((filter_lines (o.2.getD [])).map (fun l => format_line_bytes l o.1)).flatten
    if o.1.roundStartSuicide then
      { written := written, warnings := [], notices := [noticeMsg o.1] }
    else
      { written := written, warnings := [], notices := [] }

/-- The whole driver loop over the outcome stream, concatenating per-outcome effects in
order. -/
def processOutcomes (filter_lines : List Bytes → List Bytes) : List Outcome → DriveOut
  | [] => { written := [], warnings := [], notices := [] }
  | o :: os =>
    let s := driveStep filter_lines o
    let rest := processOutcomes filter_lines os
    { written := s.written ++ rest.written,
      warnings := s.warnings ++ rest.warnings,
      notices := s.notices ++ rest.notices }

/-- The downloader object: the fields of `LogDownloader` that the pipeline reads, with the
abstract `filter_lines` override as a function field.  `user_agent` and `output_path` have
no observable effect in the model. -/
structure Downloader where
  tgforums_cookie : String := ""
  user_agent : String := "ss13-tools"
  output_path : String := "logs.txt"
  rounds : List RoundData := []
  filter_lines : List Bytes → List Bytes

/-- Observable result of one `process_and_write` call: the bytes the output file holds
when the call ends (the file is opened for truncating write, so earlier contents are
gone), the diagnostics printed, and the exception, if any, that aborted the call. -/
structure RunResult where
  written : Bytes
  warnings : List String
  notices : List String
  err : Option PyErr

/-- `process_and_write`: with an empty round list, `self.rounds or await
self.update_round_list()` stores `None` (the abstract method returns `None`), and
iterating it raises after the file has been truncated.  Otherwise the coordinator is
driven over `self.rounds`; the outcomes yielded before any exception are filtered and
written, and the per-task timestamp mutations persist on the downloader's round list. -/
def process_and_write (env : Env) (dl : Downloader) : Downloader × RunResult :=
  if dl.rounds.isEmpty then
    ({ dl with rounds := [] },
     { written := [], warnings := [], notices := [], err := some .noneIterError })
  else
    let p := get_logs_async env dl.tgforums_cookie dl.rounds
    let d := processOutcomes dl.filter_lines p.1
    ({ dl with rounds := dl.rounds.map (parseRound env.iso) },
     { written := d.written, warnings := d.warnings, notices := d.notices, err := p.2 })

/-- Test date used by the concrete fixtures. -/
def dA : Date := { year := 2020, month := 3, day := 7 }

/-- Test ISO parser: the string T parses, everything else raises. -/
def isoT (s : String) : Option Date := if s = "T" then some dA else none

/-- A round with a parseable textual timestamp. -/
def rT : RoundData := { server := "srv", roundID := 5, timestamp := .raw "T", roundStartSuicide := false }

/-- The round `rT` after its timestamp is normalized. -/
def rTp : RoundData := { server := "srv", roundID := 5, timestamp := .parsed dA, roundStartSuicide := false }

/-- A round with an unparseable textual timestamp. -/
def rBad : RoundData := { server := "bad", roundID := 9, timestamp := .raw "B", roundStartSuicide := false }

/-- A round with the round-start-suicide flag set. -/
def rSu : RoundData := { server := "srv", roundID := 5, timestamp := .raw "T", roundStartSuicide := true }

/-- Archive on which every candidate link answers HTTP 404. -/
def envBad : Env := { iso := isoT, http := fun _ => .bad }

/-- Archive on which every candidate link fails at the network level. -/
def envNet : Env := { iso := isoT, http := fun _ => .netFail }

/-- Archive on which every candidate link succeeds with body hello. -/
def envBody : Env := { iso := isoT, http := fun _ => .ok (strBytes "hello") }

/-- Archive on which every candidate link succeeds with an empty body. -/
def envEmpty : Env := { iso := isoT, http := fun _ => .ok [] }

/-- First round of the two-round cross-candidate fixture. -/
def rA : RoundData := { server := "alpha", roundID := 1, timestamp := .raw "T", roundStartSuicide := false }

/-- Second round of the two-round cross-candidate fixture. -/
def rB : RoundData := { server := "beta", roundID := 2, timestamp := .raw "T", roundStartSuicide := false }

/-- The round `rA` after its timestamp is normalized. -/
def rAp : RoundData := { server := "alpha", roundID := 1, timestamp := .parsed dA, roundStartSuicide := false }

/-- The round `rB` after its timestamp is normalized. -/
def rBp : RoundData := { server := "beta", roundID := 2, timestamp := .parsed dA, roundStartSuicide := false }

/-- Archive serving distinct bodies at the two rounds' own links. -/
def envAB : Env :=
  { iso := isoT,
    http := fun u =>
      if u = "txt/alpha/2020/03/07/1" then .ok (strBytes "ALOG")
      else if u = "txt/beta/2020/03/07/2" then .ok (strBytes "BLOG")
      else .bad }

/-- Downloader fixture with one round and an identity line filter. -/
def dl0 : Downloader :=
  { tgforums_cookie := "", user_agent := "ua", output_path := "out",
    rounds := [rT], filter_lines := id }

end SS13

namespace SS13

theorem splitCRLF_ne_nil (l : List Char) : splitCRLF l ≠ [] := by
  match l with
  | [] => simp [splitCRLF]
  | [c] => simp [splitCRLF]
  | c1 :: c2 :: rest =>
    unfold splitCRLF
    split
    · simp
    · split <;> simp

theorem parseRound_of_isoparseTs (iso : String → Option Date) (r : RoundData) (d : Date)
    (h : isoparseTs iso r.timestamp = some d) :
    parseRound iso r = { r with timestamp := .parsed d } := by
  cases hts : r.timestamp with
  | raw s =>
    rw [hts] at h
    simp [isoparseTs] at h
    simp [parseRound, hts, h]
  | parsed e =>
    rw [hts] at h
    simp [isoparseTs] at h

theorem fetch_ok_round (env : Env) (ck : String) (R : List RoundData) (r rd : RoundData)
    (b : Bytes) (h : fetch env ck R r = Except.ok (some (rd, b))) :
    rd = parseRound env.iso r := by
  unfold fetch at h
  cases hts : isoparseTs env.iso r.timestamp with
  | none => rw [hts] at h; simp at h
  | some d =>
    rw [hts] at h
    cases hl : fetchLoop env ck R with
    | error e => rw [hl] at h; simp at h
    | ok v =>
      rw [hl] at h
      cases v with
      | none => simp at h
      | some body =>
        simp at h
        rw [parseRound_of_isoparseTs env.iso r d hts]
        exact h.1.symm

theorem getLogsGo_allOk (env : Env) (ck : String) (R : List RoundData) (rs : List RoundData)
    (h : ∀ r ∈ rs, ∃ rd b, fetch env ck R r = Except.ok (some (rd, b))) :
    (getLogsGo env ck R rs).2 = none ∧
    (getLogsGo env ck R rs).1.map Prod.fst = rs.map (parseRound env.iso) := by
  induction rs with
  | nil => simp [getLogsGo]
  | cons r rs ih =>
    obtain ⟨rd, b, hf⟩ := h r (List.mem_cons_self r rs)
    have hrest := ih (fun x hx => h x (List.mem_cons_of_mem r hx))
    have hrd : rd = parseRound env.iso r := fetch_ok_round env ck R r rd b hf
    unfold getLogsGo
    rw [hf]
    by_cases hb : b = []
    · subst hb
      simp [yieldStep, hrest.1, hrest.2, hrd]
    · simp [yieldStep, hb, hrest.1, hrest.2, hrd]

theorem getLogsGo_no_empty_list (env : Env) (ck : String) (R rs : List RoundData)
    (o : Outcome) (ho : o ∈ (getLogsGo env ck R rs).1) : o.2 ≠ some ([] : List Bytes) := by
  induction rs with
  | nil => simp [getLogsGo] at ho
  | cons r rs ih =>
    unfold getLogsGo at ho
    cases hf : fetch env ck R r with
    | error e => rw [hf] at ho; simp at ho
    | ok v =>
      rw [hf] at ho
      cases v with
      | none => simp [yieldStep] at ho
      | some p =>
        obtain ⟨rd, b⟩ := p
        by_cases hb : b = []
        · subst hb
          simp [yieldStep] at ho
          rcases ho with ho | ho
          · rw [ho]; simp
          · exact ih ho
        · simp [yieldStep, hb] at ho
          rcases ho with ho | ho
          · rw [ho]; simp [splitCRLF_ne_nil]
          · exact ih ho

theorem processOutcomes_append (f : List Bytes → List Bytes) (xs ys : List Outcome) :
    processOutcomes f (xs ++ ys) =
      { written := (processOutcomes f xs).written ++ (processOutcomes f ys).written,
        warnings := (processOutcomes f xs).warnings ++ (processOutcomes f ys).warnings,
        notices := (processOutcomes f xs).notices ++ (processOutcomes f ys).notices } := by
  induction xs with
  | nil => simp [processOutcomes]
  | cons x xs ih => simp [processOutcomes, ih, List.append_assoc]

end SS13

namespace SS13

/-- C1 (counterexample): on a one-round input whose every candidate link answers 404, the
generator aborts with the TypeError from unpacking the fetch's bare None and yields zero
outcomes, not one outcome per input round as claimed. -/
theorem get_logs_async_c1_counter :
    (get_logs_async envBad "" [rT]).1.length ≠ ([rT] : List RoundData).length := by decide

/-- C1 (amended): when every round's fetch task completes with a result tuple, the
generator finishes without an exception and yields exactly one outcome per input round,
in submission order: the yielded round objects are the input rounds, in order, with
their timestamps normalized. -/
theorem get_logs_async_order (env : Env) (ck : String) (rounds : List RoundData)
    (h : ∀ r ∈ rounds, ∃ rd b,
      fetch env ck (rounds.map (parseRound env.iso)) r = Except.ok (some (rd, b))) :
    (get_logs_async env ck rounds).2 = none ∧
    (get_logs_async env ck rounds).1.map Prod.fst = rounds.map (parseRound env.iso) ∧
    (get_logs_async env ck rounds).1.length = rounds.length := by
  have hmain := getLogsGo_allOk env ck (rounds.map (parseRound env.iso)) rounds h
  refine ⟨hmain.1, hmain.2, ?_⟩
  have hlen := congrArg List.length hmain.2
  simpa using hlen

/-- Witness for the amended C1 theorem at a concrete one-round input. -/
theorem get_logs_async_order_witness :
    (get_logs_async envBody "" [rT]).2 = none ∧
    (get_logs_async envBody "" [rT]).1.map Prod.fst = [rT].map (parseRound envBody.iso) ∧
    (get_logs_async envBody "" [rT]).1.length = ([rT] : List RoundData).length :=
  get_logs_async_order envBody "" [rT] (by
    intro r hr
    rw [List.mem_singleton] at hr
    subst hr
    exact ⟨rTp, strBytes "hello", rfl⟩)

/-- C2 (code bug): with a single round whose every candidate link answers 404, and with
one whose candidate fails at the network level, the consumer receives an exception, not
the absent marker the docstring promises. -/
theorem get_logs_async_c2_crash :
    get_logs_async envBad "" [rT] = ([], some PyErr.unpackTypeError) ∧
    get_logs_async envNet "" [rT] = ([], some PyErr.networkError) :=
  ⟨by decide, by decide⟩

/-- C3 (code bug): the candidate generator is scoped to the whole round list, so round
rB's fetch consults round rA's link first and returns rA's body as rB's outcome, even
though rB's own link serves a different body. -/
theorem fetch_c3_cross_round :
    fetch envAB "" ([rA, rB].map (parseRound envAB.iso)) rB
      = Except.ok (some (rBp, strBytes "ALOG")) ∧
    get_logs_async envAB "" [rA, rB]
      = ([(rAp, some [strBytes "ALOG"]), (rBp, some [strBytes "ALOG"])], none) :=
  ⟨rfl, by decide⟩

/-- C4 (counterexample): the first run succeeds and writes the round's line, but the
second run on the same downloader aborts with the TypeError that isoparse raises on the
already-normalized timestamp, and its (truncated) output differs from the first run's. -/
theorem process_and_write_c4_counter :
    (process_and_write envBody dl0).2.err = none ∧
    (process_and_write envBody (process_and_write envBody dl0).1).2.err
      = some PyErr.isoparseError ∧
    (process_and_write envBody (process_and_write envBody dl0).1).2.written
      ≠ (process_and_write envBody dl0).2.written := by decide

/-- C4 (amended): running process_and_write a second time on the same downloader is not
idempotent: the first run replaced every textual timestamp by an instant in place, so the
second run's first fetch raises a TypeError from isoparse, the run aborts, and the
output file is left truncated and empty. -/
theorem process_and_write_second_run (env : Env) (dl : Downloader)
    (hne : dl.rounds ≠ [])
    (hp : ∀ r ∈ dl.rounds, ∃ d, (parseRound env.iso r).timestamp = Timestamp.parsed d) :
    ((process_and_write env (process_and_write env dl).1).2).err = some PyErr.isoparseError ∧
    ((process_and_write env (process_and_write env dl).1).2).written = [] := by
  obtain ⟨r0, rs, hr⟩ := List.exists_cons_of_ne_nil hne
  obtain ⟨d0, hd0⟩ := hp r0 (hr ▸ List.mem_cons_self r0 rs)
  have h2 : ∀ ck R, fetch env ck R (parseRound env.iso r0) = Except.error PyErr.isoparseError := by
    intro ck R
    unfold fetch
    rw [hd0]
    simp [isoparseTs]
  have h1 : (process_and_write env dl).1 =
      { dl with rounds := dl.rounds.map (parseRound env.iso) } := by
    unfold process_and_write
    rw [hr]
    simp
  rw [h1]
  unfold process_and_write
  rw [hr]
  simp only [List.map_cons, List.isEmpty_cons]
  simp [get_logs_async, getLogsGo, h2, processOutcomes]

/-- Witness for the amended C4 theorem at a concrete downloader. -/
theorem process_and_write_second_run_witness :
    ((process_and_write envBody (process_and_write envBody dl0).1).2).err
      = some PyErr.isoparseError ∧
    ((process_and_write envBody (process_and_write envBody dl0).1).2).written = [] :=
  process_and_write_second_run envBody dl0 (by decide)
    (by
      intro r hr
      simp [dl0] at hr
      subst hr
      exact ⟨dA, rfl⟩)

/-- C5 (counterexample): with the unparseable-timestamp round submitted first, the
coordinator aborts with the isoparse TypeError before yielding anything: the bad round
does not surface as an absent outcome and the healthy round loses its outcome too. -/
theorem get_logs_async_c5_counter :
    get_logs_async envBody "" [rBad, rT] = ([], some PyErr.isoparseError) := by decide

/-- C5 (amended): an unparseable timestamp is not confined to its round: the round's
fetch task raises, and when the coordinator awaits that task, the exception aborts the
whole generator; no absent outcome is yielded for the bad round, and no round awaited
after it yields anything. -/
theorem get_logs_async_bad_timestamp (env : Env) (ck s : String) (r : RoundData)
    (rs : List RoundData) (hts : r.timestamp = Timestamp.raw s) (hbad : env.iso s = none) :
    get_logs_async env ck (r :: rs) = ([], some PyErr.isoparseError) := by
  unfold get_logs_async getLogsGo
  have hf : fetch env ck ((r :: rs).map (parseRound env.iso)) r
      = Except.error PyErr.isoparseError := by
    unfold fetch
    simp [isoparseTs, hts, hbad]
  rw [hf]

/-- Witness for the amended C5 theorem at a concrete one-round input. -/
theorem get_logs_async_bad_timestamp_witness :
    get_logs_async envBody "" [rBad] = ([], some PyErr.isoparseError) :=
  get_logs_async_bad_timestamp envBody "" "B" rBad [] rfl rfl

/-- C6: for an outcome stream containing an absent outcome for round r, the driver
writes no bytes for r, prints exactly one warning for it, naming r's id and server,
prints no notice for it, and processes the surrounding outcomes exactly as it would
without r: no abort and no truncation of later rounds' output. -/
theorem processOutcomes_absent_round (f : List Bytes → List Bytes)
    (pre post : List Outcome) (r : RoundData) :
    processOutcomes f (pre ++ (r, none) :: post) =
      { written := (processOutcomes f pre).written ++ (processOutcomes f post).written,
        warnings := (processOutcomes f pre).warnings
          ++ warnMsg r :: (processOutcomes f post).warnings,
        notices := (processOutcomes f pre).notices ++ (processOutcomes f post).notices } := by
  rw [processOutcomes_append]
  have hstep : driveStep f (r, none) =
      { written := [], warnings := [warnMsg r], notices := [] } := rfl
  simp [processOutcomes, hstep]

/-- C7: a round with the round-start-suicide flag set whose fetch succeeded (non-empty
line list) is processed, not skipped: the driver prints exactly the informational notice
and writes every line surviving the filter, the same bytes it would write were the flag
clear. -/
theorem driveStep_suicide_flag (f : List Bytes → List Bytes) (r : RoundData)
    (logs : List Bytes) (hflag : r.roundStartSuicide = true) (hne : logs ≠ []) :
    driveStep f (r, some logs) =
      { written := ((f logs).map (fun l => format_line_bytes l r)).flatten,
        warnings := [],
        notices := [noticeMsg r] } ∧
    (driveStep f (r, some logs)).written
      = (driveStep f ({ r with roundStartSuicide := false }, some logs)).written := by
  have hfalsy : logsFalsy (some logs) = false := by
    simp [logsFalsy, hne]
  constructor
  · simp [driveStep, hfalsy, hflag]
  · simp [driveStep, hfalsy, hflag, format_line_bytes]

/-- Witness for the C7 theorem at a concrete flagged round. -/
theorem driveStep_suicide_flag_witness :
    driveStep id (rSu, some [strBytes "x"]) =
      { written := ((id [strBytes "x"]).map (fun l => format_line_bytes l rSu)).flatten,
        warnings := [],
        notices := [noticeMsg rSu] } ∧
    (driveStep id (rSu, some [strBytes "x"])).written
      = (driveStep id ({ rSu with roundStartSuicide := false }, some [strBytes "x"])).written :=
  driveStep_suicide_flag id rSu [strBytes "x"] rfl (by decide)

/-- C8: every output line the driver writes for a surviving raw line is the round's
server name, a space, the decimal round id, the literal bar separator, the raw line
unmodified, and a trailing newline; in particular the raw line Foo happened from round
(Box, 42) is written as the tagged line with a newline. -/
theorem driveStep_line_format (f : List Bytes → List Bytes) (r : RoundData)
    (logs : List Bytes) (hne : logs ≠ []) :
    (driveStep f (r, some logs)).written =
      ((f logs).map (fun l =>
        strBytes r.server ++ strBytes " " ++ strBytes (toString r.roundID)
          ++ strBytes " | " ++ l ++ strBytes "\n")).flatten ∧
    format_line_bytes (strBytes "Foo happened")
        { server := "Box", roundID := 42, timestamp := Timestamp.raw "t",
          roundStartSuicide := false }
      = strBytes "Box 42 | Foo happened\n" := by
  constructor
  · have hfalsy : logsFalsy (some logs) = false := by
      simp [logsFalsy, hne]
    cases hs : r.roundStartSuicide <;> simp [driveStep, hfalsy, hs, format_line_bytes]
  · decide

/-- Witness for the C8 theorem at a concrete round and line. -/
theorem driveStep_line_format_witness :
    (driveStep id (rT, some [strBytes "ln"])).written =
      ((id [strBytes "ln"]).map (fun l =>
        strBytes rT.server ++ strBytes " " ++ strBytes (toString rT.roundID)
          ++ strBytes " | " ++ l ++ strBytes "\n")).flatten ∧
    format_line_bytes (strBytes "Foo happened")
        { server := "Box", roundID := 42, timestamp := Timestamp.raw "t",
          roundStartSuicide := false }
      = strBytes "Box 42 | Foo happened\n" :=
  driveStep_line_format id rT [strBytes "ln"] (by decide)

/-- C9 (counterexample): the link resolver does error: on a round whose timestamp is
still in its textual form, reading timestamp.year raises an AttributeError. -/
theorem get_log_links_c9_counter :
    get_log_links "" [rT] = [Except.error PyErr.attributeError] := rfl

/-- C9 (amended): the resolver is a pure function yielding exactly one candidate URL per
round; on a round whose timestamp has been normalized it never errors, builds the URL
from the authenticated template exactly when the session credential is non-empty and
from the plain template otherwise, and lower-cases the server name, renaming the
historical identifier bagil to basil; it does error on a round whose timestamp is still
textual. -/
theorem get_log_links_resolver (ck : String) (rounds : List RoundData) (r : RoundData)
    (d : Date) (hts : r.timestamp = Timestamp.parsed d) :
    (get_log_links ck rounds).length = rounds.length ∧
    roundUrl ck r = Except.ok
      ((if ck = "" then GAME_TXT_URL else GAME_TXT_ADMIN_URL)
        (pyReplace (pyLower r.server) "bagil" "basil")
        (toString d.year) (pad2 d.month) (pad2 d.day) (toString r.roundID)) := by
  constructor
  · simp [get_log_links]
  · simp [roundUrl, hts]

/-- Witness for the amended C9 theorem at a concrete round and non-empty credential. -/
theorem get_log_links_resolver_witness :
    (get_log_links "c" [rTp]).length = ([rTp] : List RoundData).length ∧
    roundUrl "c" rTp = Except.ok
      ((if ("c" : String) = "" then GAME_TXT_URL else GAME_TXT_ADMIN_URL)
        (pyReplace (pyLower rTp.server) "bagil" "basil")
        (toString dA.year) (pad2 dA.month) (pad2 dA.day) (toString rTp.roundID)) :=
  get_log_links_resolver "c" [rTp] rTp dA rfl

/-- C10 (counterexample): a round whose only candidate succeeds with an empty body yields
the absent outcome, but a round for which no candidate succeeds does not: it aborts the
generator with a TypeError, so the two cases are distinguishable at the interface. -/
theorem get_logs_async_c10_counter :
    get_logs_async envEmpty "" [rT] = ([(rTp, none)], none) ∧
    get_logs_async envBad "" [rT] = ([], some PyErr.unpackTypeError) :=
  ⟨by decide, by decide⟩

/-- C10 (amended): when a round's fetch returns an empty joined body, the generator
yields the absent marker for that round, and no outcome carrying an empty, non-absent
line list is ever yielded for any input. -/
theorem get_logs_async_empty_body (env : Env) (ck : String) (r rd : RoundData)
    (rs : List RoundData)
    (hf : fetch env ck ((r :: rs).map (parseRound env.iso)) r = Except.ok (some (rd, []))) :
    (get_logs_async env ck (r :: rs)).1.head? = some (rd, none) ∧
    ∀ rounds : List RoundData, ∀ o ∈ (get_logs_async env ck rounds).1,
      o.2 ≠ some ([] : List Bytes) := by
  constructor
  · unfold get_logs_async getLogsGo
    rw [hf]
    simp [yieldStep]
  · intro rounds o ho
    exact getLogsGo_no_empty_list env ck (rounds.map (parseRound env.iso)) rounds o ho

/-- Witness for the amended C10 theorem at a concrete empty-body round. -/
theorem get_logs_async_empty_body_witness :
    (get_logs_async envEmpty "" [rT]).1.head? = some (rTp, none) ∧
    ∀ rounds : List RoundData, ∀ o ∈ (get_logs_async envEmpty "" rounds).1,
      o.2 ≠ some ([] : List Bytes) :=
  get_logs_async_empty_body envEmpty "" rT rTp [] rfl

end SS13
